import Mathlib

/-!
Verification of the architecture-abstraction layer of the Go assembler
front end (src/cmd/asm/internal/arch/arch.go).

The file embeds arch.go shallowly: Go maps become association lists with
Go map semantics (insertion overwrites the entry with the same key,
deletion removes it, lookup is explicit success/failure via Option), and
the per-architecture builder functions become pure Lean definitions that
mirror the source statement by statement.

The external packages cmd/internal/obj, cmd/internal/obj/i386, .../x86,
.../arm and .../ppc64 are collaborators whose sources are not part of the
material under verification; the pieces of their data that the builders
consume (register name lists, canonical opcode name lists, register
numbering constants, the register-name printer Rconv and the opcode
printer Aconv) are modelled from the specification, as marked on each
definition below.
-/

set_option maxRecDepth 4000

namespace GoAsmArch

/-! ## Go map model -/

/-- A Go map with string keys, modelled as an association list whose keys
stay unique under the operations below. -/
abbrev GoMap (α : Type) := List (String × α)

/-- Go map lookup: the value stored at the key, or failure. -/
def mapLookup {α : Type} (m : GoMap α) (k : String) : Option α :=
  match m with
  | [] => none
  | (k₀, v₀) :: rest => if k₀ = k then some v₀ else mapLookup rest k

/-- Go map assignment m[k] = v: overwrites the entry with key k when one
exists, otherwise adds a new entry. -/
def mapInsert {α : Type} (m : GoMap α) (k : String) (v : α) : GoMap α :=
  match m with
  | [] => [(k, v)]
  | (k₀, v₀) :: rest => if k₀ = k then (k, v) :: rest else (k₀, v₀) :: mapInsert rest k v

/-- Go delete(m, k): removes the entry with key k. -/
def mapDelete {α : Type} (m : GoMap α) (k : String) : GoMap α :=
  match m with
  | [] => []
  | (k₀, v₀) :: rest => if k₀ = k then mapDelete rest k else (k₀, v₀) :: mapDelete rest k

/-- A sequence of Go map assignments, first entry of the list performed
first (later assignments overwrite earlier ones with the same key). -/
def insertAll {α : Type} (m : GoMap α) (kvs : List (String × α)) : GoMap α :=
  kvs.foldl (fun m kv => mapInsert m kv.1 kv.2) m

/-- The loop pattern of the builders: for i, s := range names do
m[s] = i, starting from the empty map. -/
def anamesTable (names : List String) : GoMap Int :=
  insertAll [] (names.enum.map fun p => (p.2, (p.1 : Int)))

/-- The integer loop for i := lo; i < hi; i++ as the list of its index
values. -/
def intRange (lo hi : Int) : List Int :=
  (List.range (hi - lo).toNat).map fun n => lo + n

/-! ## External collaborators, modelled from the spec -/

namespace arm

/-- Modelled from the spec: base register-numbering range of the arm
link-architecture data (cmd/internal/obj/arm, not part of the sources
under verification). Encodings of real hardware registers are
non-negative; R0..R15, F0..F15 and the status registers occupy one
contiguous range. -/
def REG_R0 : Int := 1024

def REG_R10 : Int := REG_R0 + 10

def REG_R15 : Int := REG_R0 + 15

def REG_F0 : Int := REG_R0 + 16

def REG_F15 : Int := REG_R0 + 31

def REG_FPSR : Int := REG_R0 + 32

def REG_FPCR : Int := REG_R0 + 33

def REG_CPSR : Int := REG_R0 + 34

def REG_SPSR : Int := REG_R0 + 35

end arm

namespace ppc64

/-- Modelled from the spec: base register-numbering range of the ppc64
link-architecture data (cmd/internal/obj/ppc64, not part of the sources
under verification). Encodings of real hardware registers are
non-negative. -/
def REG_R0 : Int := 2048

def REG_R30 : Int := REG_R0 + 30

def REG_R31 : Int := REG_R0 + 31

def REG_F0 : Int := REG_R0 + 32

def REG_F31 : Int := REG_R0 + 63

def REG_CR0 : Int := REG_R0 + 64

def REG_CR7 : Int := REG_R0 + 71

def REG_MSR : Int := REG_R0 + 72

def REG_FPSCR : Int := REG_R0 + 73

def REG_CR : Int := REG_R0 + 74

def REG_XER : Int := REG_R0 + 80

def REG_LR : Int := REG_R0 + 81

def REG_CTR : Int := REG_R0 + 82

end ppc64

namespace obj

/-- Modelled from the spec: the external link-architecture objects that
the descriptor borrows (obj.LinkArch values Link386, Linkamd64,
Linkamd64p32, Linkarm, Linkppc64, Linkppc64le); the core treats them as
opaque read-only references, so only their identity is modelled. -/
inductive LinkArch where
  | Link386
  | Linkamd64
  | Linkamd64p32
  | Linkarm
  | Linkppc64
  | Linkppc64le
deriving DecidableEq

/-- Modelled from the spec: obj.Rconv, the external register-name printer
(cmd/internal/obj, not part of the sources under verification), on the
arm and ppc64 numbering ranges the builders enumerate: each hardware
register prints under its raw numeric or special name. -/
def Rconv (i : Int) : String :=
  if arm.REG_R0 ≤ i ∧ i ≤ arm.REG_R15 then "R" ++ toString (i - arm.REG_R0)
  else if arm.REG_F0 ≤ i ∧ i ≤ arm.REG_F15 then "F" ++ toString (i - arm.REG_F0)
  else if i = arm.REG_FPSR then "FPSR"
  else if i = arm.REG_FPCR then "FPCR"
  else if i = arm.REG_CPSR then "CPSR"
  else if i = arm.REG_SPSR then "SPSR"
  else if ppc64.REG_R0 ≤ i ∧ i ≤ ppc64.REG_R31 then "R" ++ toString (i - ppc64.REG_R0)
  else if ppc64.REG_F0 ≤ i ∧ i ≤ ppc64.REG_F31 then "F" ++ toString (i - ppc64.REG_F0)
  else if ppc64.REG_CR0 ≤ i ∧ i ≤ ppc64.REG_CR7 then "CR" ++ toString (i - ppc64.REG_CR0)
  else if i = ppc64.REG_MSR then "MSR"
  else if i = ppc64.REG_FPSCR then "FPSCR"
  else if i = ppc64.REG_CR then "CR"
  else "Rgok(" ++ toString i ++ ")"

end obj

namespace i386

/-- Modelled from the spec: the register name list of the 386
link-architecture data (cmd/internal/obj/i386, external data source);
a representative enumeration of the register classes. -/
def Register : List String :=
  ["AL", "CL", "DL", "BL", "AH", "CH", "DH", "BH",
   "AX", "CX", "DX", "BX", "SP", "BP", "SI", "DI",
   "F0", "F1", "F2", "F3", "F4", "F5", "F6", "F7"]

/-- Modelled from the spec: the base encoding of the first 386 register;
real encodings are non-negative. -/
def REG_AL : Int := 512

/-- Modelled from the spec: the generated canonical opcode name list of
the 386 link-architecture data (external data source); a representative
subset containing the canonical targets of every alias the builder
inserts. The generated list has no duplicate names and contains none of
the alias spellings. -/
def Anames : List String :=
  ["XXX", "ADDL", "CALL", "JMP", "MOVL", "MOVO", "MOVNTO", "MASKMOVOU",
   "JCC", "JCS", "JEQ", "JGE", "JGT", "JHI", "JLE", "JLS", "JLT", "JMI",
   "JNE", "JOC", "JOS", "JPC", "JPL", "JPS", "NOP", "POPL", "PUSHL", "RET"]

/-- Opcode constant of a canonical mnemonic: its index in Anames. -/
def opc (s : String) : Int := (Anames.indexOf s : Nat)

def AJHI : Int := opc "JHI"

def AJCC : Int := opc "JCC"

def AJCS : Int := opc "JCS"

def AJLS : Int := opc "JLS"

def AJEQ : Int := opc "JEQ"

def AJGT : Int := opc "JGT"

def AJLT : Int := opc "JLT"

def AJLE : Int := opc "JLE"

def AJGE : Int := opc "JGE"

def AJOC : Int := opc "JOC"

def AJPC : Int := opc "JPC"

def AJPL : Int := opc "JPL"

def AJNE : Int := opc "JNE"

def AJOS : Int := opc "JOS"

def AJPS : Int := opc "JPS"

def AJMI : Int := opc "JMI"

def AMASKMOVOU : Int := opc "MASKMOVOU"

def AMOVO : Int := opc "MOVO"

def AMOVNTO : Int := opc "MOVNTO"

/-- Modelled from the spec: the 386 opcode printer (external): a valid
opcode prints as its canonical mnemonic, an invalid or out-of-range
opcode prints as a clearly marked unknown value. -/
def Aconv (a : Int) : String :=
  if a < 0 then "A???" else Anames.getD a.toNat "A???"

def Link386 : obj.LinkArch := obj.LinkArch.Link386

end i386

namespace x86

/-- Modelled from the spec: the register name list of the amd64
link-architecture data (cmd/internal/obj/x86, external data source);
a representative enumeration of the register classes. -/
def Register : List String :=
  ["AL", "CL", "DL", "BL", "AH", "CH", "DH", "BH",
   "AX", "CX", "DX", "BX", "SP", "BP", "SI", "DI",
   "R8", "R9", "R10", "R11", "R12", "R13", "R14", "R15",
   "F0", "F1", "F2", "F3", "F4", "F5", "F6", "F7",
   "X0", "X1", "X2", "X3", "X4", "X5", "X6", "X7"]

/-- Modelled from the spec: the base encoding of the first amd64
register; real encodings are non-negative. -/
def REG_AL : Int := 4096

/-- Modelled from the spec: the generated canonical opcode name list of
the amd64 link-architecture data (external data source); a
representative subset containing the canonical targets of every alias
the builder inserts. The generated list has no duplicate names and
contains none of the alias spellings. -/
def Anames : List String :=
  ["XXX", "ADDL", "ADDQ", "CALL", "JMP", "MOVL", "MOVQ", "MOVO", "MOVNTO",
   "MASKMOVOU", "JCC", "JCS", "JEQ", "JGE", "JGT", "JHI", "JLE", "JLS",
   "JLT", "JMI", "JNE", "JOC", "JOS", "JPC", "JPL", "JPS", "NOP",
   "PF2IL", "PI2FL", "POPQ", "PSLLO", "PSRLO", "PUSHQ", "RET"]

/-- Opcode constant of a canonical mnemonic: its index in Anames. -/
def opc (s : String) : Int := (Anames.indexOf s : Nat)

def AJHI : Int := opc "JHI"

def AJCC : Int := opc "JCC"

def AJCS : Int := opc "JCS"

def AJLS : Int := opc "JLS"

def AJEQ : Int := opc "JEQ"

def AJGT : Int := opc "JGT"

def AJLT : Int := opc "JLT"

def AJLE : Int := opc "JLE"

def AJGE : Int := opc "JGE"

def AJOC : Int := opc "JOC"

def AJPC : Int := opc "JPC"

def AJPL : Int := opc "JPL"

def AJNE : Int := opc "JNE"

def AJOS : Int := opc "JOS"

def AJPS : Int := opc "JPS"

def AJMI : Int := opc "JMI"

def AMASKMOVOU : Int := opc "MASKMOVOU"

def AMOVQ : Int := opc "MOVQ"

def AMOVNTO : Int := opc "MOVNTO"

def AMOVO : Int := opc "MOVO"

def APF2IL : Int := opc "PF2IL"

def API2FL : Int := opc "PI2FL"

def APSLLO : Int := opc "PSLLO"

def APSRLO : Int := opc "PSRLO"

/-- Modelled from the spec: the amd64 opcode printer (external): a valid
opcode prints as its canonical mnemonic, an invalid or out-of-range
opcode prints as a clearly marked unknown value. -/
def Aconv (a : Int) : String :=
  if a < 0 then "A???" else Anames.getD a.toNat "A???"

def Linkamd64 : obj.LinkArch := obj.LinkArch.Linkamd64

def Linkamd64p32 : obj.LinkArch := obj.LinkArch.Linkamd64p32

end x86

namespace arm

/-- Modelled from the spec: the generated canonical opcode name list of
the arm link-architecture data (external data source); a representative
subset. The shared obj opcodes JMP and CALL sit at their obj indices and
the alias spellings B and BL do not occur. -/
def Anames : List String :=
  ["XXX", "CALL", "CHECKNIL", "DATA", "DUFFCOPY", "DUFFZERO", "END",
   "FUNCDATA", "GLOBL", "JMP", "NOP", "PCDATA", "RET", "TEXT",
   "AND", "EOR", "SUB", "ADD", "MOVW", "BEQ", "BNE", "SWI"]

/-- Modelled from the spec: the arm opcode printer (external): a valid
opcode prints as its canonical mnemonic, an invalid or out-of-range
opcode prints as a clearly marked unknown value. -/
def Aconv (a : Int) : String :=
  if a < 0 then "A???" else Anames.getD a.toNat "A???"

def Linkarm : obj.LinkArch := obj.LinkArch.Linkarm

end arm

namespace obj

/-- Modelled from the spec: the shared obj opcode for a call, at its
index in the arm canonical name list. -/
def ACALL : Int := (arm.Anames.indexOf "CALL" : Nat)

/-- Modelled from the spec: the shared obj opcode for a jump, at its
index in the arm canonical name list. -/
def AJMP : Int := (arm.Anames.indexOf "JMP" : Nat)

end obj

namespace ppc64

/-- Modelled from the spec: the generated canonical opcode name list of
the ppc64 link-architecture data (external data source); a
representative subset containing the canonical targets of the aliases
the builder inserts. -/
def Anames : List String :=
  ["XXX", "ADD", "ADDCC", "AND", "BC", "BCL", "BEQ", "BGE", "BGT", "BL",
   "BLE", "BLT", "BNE", "BR", "CMP", "CMPU", "MOVB", "MOVD", "MOVW",
   "MULLD", "OR", "RETURN", "SUB", "SYNC", "XOR"]

/-- Opcode constant of a canonical mnemonic: its index in Anames. -/
def opc (s : String) : Int := (Anames.indexOf s : Nat)

def ABR : Int := opc "BR"

def ABL : Int := opc "BL"

def ARETURN : Int := opc "RETURN"

/-- Modelled from the spec: the ppc64 opcode printer (external): a valid
opcode prints as its canonical mnemonic, an invalid or out-of-range
opcode prints as a clearly marked unknown value. -/
def Aconv (a : Int) : String :=
  if a < 0 then "A???" else Anames.getD a.toNat "A???"

def Linkppc64 : obj.LinkArch := obj.LinkArch.Linkppc64

def Linkppc64le : obj.LinkArch := obj.LinkArch.Linkppc64le

end ppc64

/-! ## arch.go -/

/-- Pseudo-registers whose names are the constant name without the
leading R (const RFP = -(iota + 1); RSB; RSP; RPC). -/
def RFP : Int := -1

def RSB : Int := -2

def RSP : Int := -3

def RPC : Int := -4

/-- Arch wraps the link architecture object with more
architecture-specific information. Nilable Go fields (the maps, the
function values and the prefix table) are wrapped in Option so that a
nil field is representable. -/
structure Arch where
  LinkArch : obj.LinkArch
  Instructions : Option (GoMap Int)
  Register : Option (GoMap Int)
  registerPrefixSet : Option (GoMap Bool)
  RegisterNumber : Option (String → Int → Int × Bool)
  IsJump : Option (String → Option Bool)
  Aconv : Option (Int → String)

/-- nilRegisterNumber is the register number function for architectures
that do not accept the R(N) notation. It always returns failure. -/
def nilRegisterNumber (name : String) (n : Int) : Int × Bool :=
  (0, false)

/-- jump386: word[0] == 'J' || word == "CALL". Indexing the first byte
of an empty string panics in Go, so the result is Option-valued with
none standing for the abort. -/
def jump386 (word : String) : Option Bool :=
  word.data.head?.map fun c => c == 'J' || word == "CALL"

/-- Modelled from the spec: armRegisterNumber belongs to the arch
package but its file is not among the sources under verification; per
the spec it returns the encoding of an in-range prefixed register and
failure otherwise. -/
def armRegisterNumber (name : String) (n : Int) : Int × Bool :=
  if name = "R" ∧ 0 ≤ n ∧ n ≤ 15 then (arm.REG_R0 + n, true)
  else if name = "F" ∧ 0 ≤ n ∧ n ≤ 15 then (arm.REG_F0 + n, true)
  else (0, false)

/-- Modelled from the spec: jumpArm belongs to the arch package but its
file is not among the sources under verification; per the spec it is a
total predicate matching the arm branch/call mnemonic set. -/
def jumpArm (word : String) : Option Bool :=
  some (word.startsWith "B" || word == "RET")

/-- Modelled from the spec: ppc64RegisterNumber belongs to the arch
package but its file is not among the sources under verification; per
the spec it returns the encoding of an in-range prefixed register and
failure otherwise. -/
def ppc64RegisterNumber (name : String) (n : Int) : Int × Bool :=
  if name = "R" ∧ 0 ≤ n ∧ n ≤ 31 then (ppc64.REG_R0 + n, true)
  else if name = "F" ∧ 0 ≤ n ∧ n ≤ 31 then (ppc64.REG_F0 + n, true)
  else if name = "CR" ∧ 0 ≤ n ∧ n ≤ 7 then (ppc64.REG_CR0 + n, true)
  else (0, false)

/-- Modelled from the spec: jumpPPC64 belongs to the arch package but
its file is not among the sources under verification; per the spec it is
a total predicate matching the ppc64 branch/call mnemonic set. -/
def jumpPPC64 (word : String) : Option Bool :=
  some (word.startsWith "B" || word == "RETURN")

/-- The register map built by arch386: every name of i386.Register at
encoding i + i386.REG_AL, then the pseudo-registers. -/
def arch386Register : GoMap Int :=
  let register := insertAll []
    (i386.Register.enum.map fun p => (p.2, (p.1 : Int) + i386.REG_AL))
  let register := mapInsert register "SB" RSB
  let register := mapInsert register "FP" RFP
  mapInsert register "PC" RPC

/-- The annoying aliases of arch386, in source order. -/
def arch386Aliases : List (String × Int) :=
  [("JA", i386.AJHI),
   ("JAE", i386.AJCC),
   ("JB", i386.AJCS),
   ("JBE", i386.AJLS),
   ("JC", i386.AJCS),
   ("JE", i386.AJEQ),
   ("JG", i386.AJGT),
   ("JHS", i386.AJCC),
   ("JL", i386.AJLT),
   ("JLO", i386.AJCS),
   ("JNA", i386.AJLS),
   ("JNAE", i386.AJCS),
   ("JNB", i386.AJCC),
   ("JNBE", i386.AJHI),
   ("JNC", i386.AJCC),
   ("JNG", i386.AJLE),
   ("JNGE", i386.AJLT),
   ("JNL", i386.AJGE),
   ("JNLE", i386.AJGT),
   ("JNO", i386.AJOC),
   ("JNP", i386.AJPC),
   ("JNS", i386.AJPL),
   ("JNZ", i386.AJNE),
   ("JO", i386.AJOS),
   ("JP", i386.AJPS),
   ("JPE", i386.AJPS),
   ("JPO", i386.AJPC),
   ("JS", i386.AJMI),
   ("JZ", i386.AJEQ),
   ("MASKMOVDQU", i386.AMASKMOVOU),
   ("MOVOA", i386.AMOVO),
   ("MOVNTDQ", i386.AMOVNTO)]

/-- The instruction map built by arch386: the generated canonical table
with the alias assignments layered on top. -/
def arch386Instructions : GoMap Int :=
  insertAll (anamesTable i386.Anames) arch386Aliases

def arch386 : Arch :=
  { LinkArch := i386.Link386
    Instructions := some arch386Instructions
    Register := some arch386Register
    registerPrefixSet := none
    RegisterNumber := some nilRegisterNumber
    IsJump := some jump386
    Aconv := some i386.Aconv }

/-- The register map built by archAmd64: every name of x86.Register at
encoding i + x86.REG_AL, then the pseudo-registers. -/
def archAmd64Register : GoMap Int :=
  let register := insertAll []
    (x86.Register.enum.map fun p => (p.2, (p.1 : Int) + x86.REG_AL))
  let register := mapInsert register "SB" RSB
  let register := mapInsert register "FP" RFP
  mapInsert register "PC" RPC

/-- The annoying aliases of archAmd64, in source order (the entry MOVOA
is assigned twice in the source, lines 198 and 199). -/
def amd64Aliases : List (String × Int) :=
  [("JA", x86.AJHI),
   ("JAE", x86.AJCC),
   ("JB", x86.AJCS),
   ("JBE", x86.AJLS),
   ("JC", x86.AJCS),
   ("JE", x86.AJEQ),
   ("JG", x86.AJGT),
   ("JHS", x86.AJCC),
   ("JL", x86.AJLT),
   ("JLO", x86.AJCS),
   ("JNA", x86.AJLS),
   ("JNAE", x86.AJCS),
   ("JNB", x86.AJCC),
   ("JNBE", x86.AJHI),
   ("JNC", x86.AJCC),
   ("JNG", x86.AJLE),
   ("JNGE", x86.AJLT),
   ("JNL", x86.AJGE),
   ("JNLE", x86.AJGT),
   ("JNO", x86.AJOC),
   ("JNP", x86.AJPC),
   ("JNS", x86.AJPL),
   ("JNZ", x86.AJNE),
   ("JO", x86.AJOS),
   ("JP", x86.AJPS),
   ("JPE", x86.AJPS),
   ("JPO", x86.AJPC),
   ("JS", x86.AJMI),
   ("JZ", x86.AJEQ),
   ("MASKMOVDQU", x86.AMASKMOVOU),
   ("MOVD", x86.AMOVQ),
   ("MOVDQ2Q", x86.AMOVQ),
   ("MOVNTDQ", x86.AMOVNTO),
   ("MOVOA", x86.AMOVO),
   ("MOVOA", x86.AMOVO),
   ("PF2ID", x86.APF2IL),
   ("PI2FD", x86.API2FL),
   ("PSLLDQ", x86.APSLLO),
   ("PSRLDQ", x86.APSRLO)]

/-- The instruction map built by archAmd64: the generated canonical
table with the alias assignments layered on top. -/
def archAmd64Instructions : GoMap Int :=
  insertAll (anamesTable x86.Anames) amd64Aliases

def archAmd64 : Arch :=
  { LinkArch := x86.Linkamd64
    Instructions := some archAmd64Instructions
    Register := some archAmd64Register
    registerPrefixSet := none
    RegisterNumber := some nilRegisterNumber
    IsJump := some jump386
    Aconv := some x86.Aconv }

/-- The register map built by archArm: the loop over
[arm.REG_R0, arm.REG_SPSR) through obj.Rconv, the deletion and renaming
of R10 to g, the coprocessor names C0..C15, then the pseudo-registers
(including SP). -/
def archArmRegister : GoMap Int :=
  let register := insertAll []
    ((intRange arm.REG_R0 arm.REG_SPSR).map fun i => (obj.Rconv i, i))
  let register := mapDelete register "R10"
  let register := mapInsert register "g" arm.REG_R10
  let register := insertAll register
    ((List.range 16).map fun n => ("C" ++ toString n, (n : Int)))
  let register := mapInsert register "SB" RSB
  let register := mapInsert register "FP" RFP
  let register := mapInsert register "PC" RPC
  mapInsert register "SP" RSP

def archArmRegisterPrefixSet : GoMap Bool :=
  [("F", true), ("R", true)]

/-- The annoying aliases of archArm, in source order. -/
def armAliases : List (String × Int) :=
  [("B", obj.AJMP),
   ("BL", obj.ACALL)]

/-- The instruction map built by archArm: the generated canonical table
with the alias assignments layered on top. -/
def archArmInstructions : GoMap Int :=
  insertAll (anamesTable arm.Anames) armAliases

def archArm : Arch :=
  { LinkArch := arm.Linkarm
    Instructions := some archArmInstructions
    Register := some archArmRegister
    registerPrefixSet := some archArmRegisterPrefixSet
    RegisterNumber := some armRegisterNumber
    IsJump := some jumpArm
    Aconv := some arm.Aconv }

/-- The register map built by archPPC64: the loops over the R, F, CR and
special ranges through obj.Rconv, the named special registers, the
pseudo-registers, then the deletion and renaming of R30 to g. -/
def archPPC64Register : GoMap Int :=
  let register := insertAll []
    ((intRange ppc64.REG_R0 (ppc64.REG_R31 + 1)).map fun i => (obj.Rconv i, i))
  let register := insertAll register
    ((intRange ppc64.REG_F0 (ppc64.REG_F31 + 1)).map fun i => (obj.Rconv i, i))
  let register := insertAll register
    ((intRange ppc64.REG_CR0 (ppc64.REG_CR7 + 1)).map fun i => (obj.Rconv i, i))
  let register := insertAll register
    ((intRange ppc64.REG_MSR (ppc64.REG_CR + 1)).map fun i => (obj.Rconv i, i))
  let register := mapInsert register "CR" ppc64.REG_CR
  let register := mapInsert register "XER" ppc64.REG_XER
  let register := mapInsert register "LR" ppc64.REG_LR
  let register := mapInsert register "CTR" ppc64.REG_CTR
  let register := mapInsert register "FPSCR" ppc64.REG_FPSCR
  let register := mapInsert register "MSR" ppc64.REG_MSR
  let register := mapInsert register "SB" RSB
  let register := mapInsert register "FP" RFP
  let register := mapInsert register "PC" RPC
  let register := mapDelete register "R30"
  mapInsert register "g" ppc64.REG_R30

def archPPC64RegisterPrefixSet : GoMap Bool :=
  [("CR", true), ("F", true), ("R", true), ("SPR", true)]

/-- The annoying aliases of archPPC64, in source order. -/
def ppc64Aliases : List (String × Int) :=
  [("BR", ppc64.ABR),
   ("BL", ppc64.ABL),
   ("RETURN", ppc64.ARETURN)]

/-- The instruction map built by archPPC64: the generated canonical
table with the alias assignments layered on top. -/
def archPPC64Instructions : GoMap Int :=
  insertAll (anamesTable ppc64.Anames) ppc64Aliases

def archPPC64 : Arch :=
  { LinkArch := ppc64.Linkppc64
    Instructions := some archPPC64Instructions
    Register := some archPPC64Register
    registerPrefixSet := some archPPC64RegisterPrefixSet
    RegisterNumber := some ppc64RegisterNumber
    IsJump := some jumpPPC64
    Aconv := some ppc64.Aconv }

/-- Set configures the architecture specified by GOARCH and returns its
representation. It returns nil (none) if GOARCH is not recognized. -/
def Set (GOARCH : String) : Option Arch :=
  if GOARCH = "386" then some arch386
  else if GOARCH = "amd64" then some archAmd64
  else if GOARCH = "amd64p32" then some { archAmd64 with LinkArch := x86.Linkamd64p32 }
  else if GOARCH = "arm" then some archArm
  else if GOARCH = "ppc64" then some { archPPC64 with LinkArch := ppc64.Linkppc64 }
  else if GOARCH = "ppc64le" then some { archPPC64 with LinkArch := ppc64.Linkppc64le }
  else none

/-- A descriptor with every operational field populated: non-nil
instruction table, register table, register-number resolver, jump
classifier and opcode printer (the prefix table is legitimately nil on
the x86 family). -/
def fullyPopulated (a : Arch) : Bool :=
  a.Instructions.isSome && a.Register.isSome && a.RegisterNumber.isSome &&
    a.IsJump.isSome && a.Aconv.isSome

/-- The amd64 alias list with the duplicated MOVOA assignment performed
only once. -/
def amd64AliasesOnce : List (String × Int) :=
  [("JA", x86.AJHI),
   ("JAE", x86.AJCC),
   ("JB", x86.AJCS),
   ("JBE", x86.AJLS),
   ("JC", x86.AJCS),
   ("JE", x86.AJEQ),
   ("JG", x86.AJGT),
   ("JHS", x86.AJCC),
   ("JL", x86.AJLT),
   ("JLO", x86.AJCS),
   ("JNA", x86.AJLS),
   ("JNAE", x86.AJCS),
   ("JNB", x86.AJCC),
   ("JNBE", x86.AJHI),
   ("JNC", x86.AJCC),
   ("JNG", x86.AJLE),
   ("JNGE", x86.AJLT),
   ("JNL", x86.AJGE),
   ("JNLE", x86.AJGT),
   ("JNO", x86.AJOC),
   ("JNP", x86.AJPC),
   ("JNS", x86.AJPL),
   ("JNZ", x86.AJNE),
   ("JO", x86.AJOS),
   ("JP", x86.AJPS),
   ("JPE", x86.AJPS),
   ("JPO", x86.AJPC),
   ("JS", x86.AJMI),
   ("JZ", x86.AJEQ),
   ("MASKMOVDQU", x86.AMASKMOVOU),
   ("MOVD", x86.AMOVQ),
   ("MOVDQ2Q", x86.AMOVQ),
   ("MOVNTDQ", x86.AMOVNTO),
   ("MOVOA", x86.AMOVO),
   ("PF2ID", x86.APF2IL),
   ("PI2FD", x86.API2FL),
   ("PSLLDQ", x86.APSLLO),
   ("PSRLDQ", x86.APSRLO)]

/-- No key of the alias list is assigned twice with differing values. -/
def noTwoDifferingInserts (kvs : List (String × Int)) : Bool :=
  kvs.all fun a => kvs.all fun b => !(a.1 == b.1) || a.2 == b.2

/-- The pseudo-register names of arch.go. -/
def pseudoNames : List String := ["FP", "SB", "PC", "SP"]

/-! ## Lemmas about the Go map model -/

theorem mapLookup_insert {α : Type} (m : GoMap α) (k k' : String) (v : α) :
    mapLookup (mapInsert m k' v) k = if k' = k then some v else mapLookup m k := by
  induction m with
  | nil => simp [mapInsert, mapLookup]
  | cons p rest ih =>
    obtain ⟨k₀, v₀⟩ := p
    by_cases h₀ : k₀ = k' <;> by_cases h₁ : k' = k <;> by_cases h₂ : k₀ = k <;>
      simp_all [mapInsert, mapLookup]

theorem mapInsert_idem {α : Type} (m : GoMap α) (k : String) (v : α) :
    mapInsert (mapInsert m k v) k v = mapInsert m k v := by
  induction m with
  | nil => simp [mapInsert]
  | cons p rest ih =>
    obtain ⟨k₀, v₀⟩ := p
    by_cases h : k₀ = k <;> simp [mapInsert, h, ih]

theorem mapLookup_insertAll {α : Type} (kvs : List (String × α)) (m : GoMap α) (k : String) :
    mapLookup (insertAll m kvs) k =
      (kvs.reverse.find? fun kv => kv.1 == k).elim (mapLookup m k) (fun kv => some kv.2) := by
  induction kvs generalizing m with
  | nil => simp [insertAll]
  | cons kv rest ih =>
    obtain ⟨k₀, v₀⟩ := kv
    have hstep : insertAll m ((k₀, v₀) :: rest) = insertAll (mapInsert m k₀ v₀) rest := by
      simp [insertAll]
    rw [hstep, ih, List.reverse_cons, List.find?_append]
    cases hf : rest.reverse.find? (fun kv => kv.1 == k) with
    | some kv => simp [Option.or, Option.elim]
    | none =>
      by_cases hk : k₀ = k
      · subst hk
        simp [Option.or, Option.elim, List.find?, mapLookup_insert]
      · have hbeq : (k₀ == k) = false := by simp [hk]
        simp [Option.or, Option.elim, List.find?, hbeq, hk, mapLookup_insert]

end GoAsmArch

namespace GoAsmArch

/-! ## The claims -/

/-- C1: for every identifier in the closed set 386, amd64, amd64p32,
arm, ppc64, ppc64le the factory Set returns a descriptor whose
instruction table, register table, register-number resolver, jump
classifier and opcode printer are all non-nil, and for every identifier
outside that set it returns the explicit absent result none, never a
partially built or default descriptor. -/
theorem C1_set_closed_enumeration :
    ((["386", "amd64", "amd64p32", "arm", "ppc64", "ppc64le"].all
        fun s => ((Set s).map fullyPopulated).getD false) = true) ∧
    ∀ s : String, s ≠ "386" → s ≠ "amd64" → s ≠ "amd64p32" → s ≠ "arm" →
      s ≠ "ppc64" → s ≠ "ppc64le" → Set s = none := by
  refine ⟨rfl, ?_⟩
  intro s h₁ h₂ h₃ h₄ h₅ h₆
  simp [Set, h₁, h₂, h₃, h₄, h₅, h₆]

/-- Witness for C1: the unsupported identifier mips64 yields none. -/
theorem C1_witness : Set "mips64" = none :=
  C1_set_closed_enumeration.2 "mips64" (by decide) (by simp) (by decide)
    (by simp) (by decide) (by simp)

/-- C2: every alias assignment of every builder is the value found by a
lookup of that alias in the final instruction table; the alias layer
overwrites the generated table whatever the generated table contains
(stated for an arbitrary generated table gen), never the reverse; and in
the amd64 table the entries JAE and JNB hold the identical opcode
x86.AJCC. -/
theorem C2_alias_lookup_and_precedence :
    (∀ gen : GoMap Int,
        mapLookup (insertAll gen amd64Aliases) "JAE" = some x86.AJCC ∧
        mapLookup (insertAll gen amd64Aliases) "JNB" = some x86.AJCC) ∧
    ((amd64Aliases.all fun kv => mapLookup archAmd64Instructions kv.1 == some kv.2) = true) ∧
    ((arch386Aliases.all fun kv => mapLookup arch386Instructions kv.1 == some kv.2) = true) ∧
    ((armAliases.all fun kv => mapLookup archArmInstructions kv.1 == some kv.2) = true) ∧
    ((ppc64Aliases.all fun kv => mapLookup archPPC64Instructions kv.1 == some kv.2) = true) ∧
    mapLookup archAmd64Instructions "JAE" = some x86.AJCC ∧
    mapLookup archAmd64Instructions "JNB" = some x86.AJCC := by
  refine ⟨?_, by decide⟩
  intro gen
  constructor <;> (rw [mapLookup_insertAll]; rfl)

/-- C3: the arm register table has no R10 entry and maps g to
arm.REG_R10, the encoding whose raw numeric name (printed by obj.Rconv)
is R10 and which index 10 of the R numbering would have received; the
ppc64 register table has no R30 entry and maps g to ppc64.REG_R30. -/
theorem C3_runtime_register_renamed :
    mapLookup archArmRegister "R10" = none ∧
    mapLookup archArmRegister "g" = some arm.REG_R10 ∧
    obj.Rconv arm.REG_R10 = "R10" ∧
    arm.REG_R10 = arm.REG_R0 + 10 ∧
    mapLookup archPPC64Register "R30" = none ∧
    mapLookup archPPC64Register "g" = some ppc64.REG_R30 ∧
    obj.Rconv ppc64.REG_R30 = "R30" ∧
    ppc64.REG_R30 = ppc64.REG_R0 + 30 := by
  decide

/-- C4: round-trip law: for every canonical mnemonic m of the generated
canonical table of each supported architecture, applying the opcode
printer to the instruction-table lookup of m gives back m. -/
theorem C4_round_trip :
    ((i386.Anames.all fun m =>
        i386.Aconv ((mapLookup arch386Instructions m).getD (-1)) == m) = true) ∧
    ((x86.Anames.all fun m =>
        x86.Aconv ((mapLookup archAmd64Instructions m).getD (-1)) == m) = true) ∧
    ((arm.Anames.all fun m =>
        arm.Aconv ((mapLookup archArmInstructions m).getD (-1)) == m) = true) ∧
    ((ppc64.Anames.all fun m =>
        ppc64.Aconv ((mapLookup archPPC64Instructions m).getD (-1)) == m) = true) := by
  decide

/-- C5: the amd64p32 descriptor agrees with the amd64 descriptor on the
instruction table, register table, register-prefix table,
register-number resolver, jump classifier and opcode printer, and
differs only in the link-architecture reference; likewise ppc64le
against ppc64. -/
theorem C5_variant_reuses_tables :
    ((Set "amd64p32").map Arch.Instructions,
     (Set "amd64p32").map Arch.Register,
     (Set "amd64p32").map Arch.registerPrefixSet,
     (Set "amd64p32").map Arch.RegisterNumber,
     (Set "amd64p32").map Arch.IsJump,
     (Set "amd64p32").map Arch.Aconv) =
    ((Set "amd64").map Arch.Instructions,
     (Set "amd64").map Arch.Register,
     (Set "amd64").map Arch.registerPrefixSet,
     (Set "amd64").map Arch.RegisterNumber,
     (Set "amd64").map Arch.IsJump,
     (Set "amd64").map Arch.Aconv) ∧
    (Set "amd64p32").map Arch.LinkArch = some x86.Linkamd64p32 ∧
    (Set "amd64").map Arch.LinkArch = some x86.Linkamd64 ∧
    x86.Linkamd64p32 ≠ x86.Linkamd64 ∧
    ((Set "ppc64le").map Arch.Instructions,
     (Set "ppc64le").map Arch.Register,
     (Set "ppc64le").map Arch.registerPrefixSet,
     (Set "ppc64le").map Arch.RegisterNumber,
     (Set "ppc64le").map Arch.IsJump,
     (Set "ppc64le").map Arch.Aconv) =
    ((Set "ppc64").map Arch.Instructions,
     (Set "ppc64").map Arch.Register,
     (Set "ppc64").map Arch.registerPrefixSet,
     (Set "ppc64").map Arch.RegisterNumber,
     (Set "ppc64").map Arch.IsJump,
     (Set "ppc64").map Arch.Aconv) ∧
    (Set "ppc64le").map Arch.LinkArch = some ppc64.Linkppc64le ∧
    (Set "ppc64").map Arch.LinkArch = some ppc64.Linkppc64 ∧
    ppc64.Linkppc64le ≠ ppc64.Linkppc64 :=
  ⟨rfl, rfl, rfl, by decide, rfl, rfl, rfl, by decide⟩

/-- C6: on the architectures without numeric-register notation the
installed resolver is nilRegisterNumber, which returns (0, false) for
every input, and the register-prefix table of those descriptors is nil
(the empty set). -/
theorem C6_nil_register_number :
    (∀ name : String, ∀ n : Int, nilRegisterNumber name n = (0, false)) ∧
    arch386.RegisterNumber = some nilRegisterNumber ∧
    archAmd64.RegisterNumber = some nilRegisterNumber ∧
    (Set "amd64p32").map Arch.RegisterNumber = some (some nilRegisterNumber) ∧
    arch386.registerPrefixSet = none ∧
    archAmd64.registerPrefixSet = none ∧
    (Set "amd64p32").map Arch.registerPrefixSet = some none :=
  ⟨fun _ _ => rfl, rfl, rfl, rfl, rfl, rfl, rfl⟩

/-- C7: the pseudo-register sentinels are the same small negative
integers on every architecture that defines them: FP is -1, SB is -2,
PC is -4 everywhere, SP is -3 on arm, and every other entry of every
register table carries a non-negative real encoding, so the sentinels
are distinct from every real encoding. -/
theorem C7_pseudo_register_sentinels :
    RFP = -1 ∧ RSB = -2 ∧ RSP = -3 ∧ RPC = -4 ∧
    mapLookup arch386Register "FP" = some (-1) ∧
    mapLookup arch386Register "SB" = some (-2) ∧
    mapLookup arch386Register "PC" = some (-4) ∧
    mapLookup archAmd64Register "FP" = some (-1) ∧
    mapLookup archAmd64Register "SB" = some (-2) ∧
    mapLookup archAmd64Register "PC" = some (-4) ∧
    mapLookup archArmRegister "FP" = some (-1) ∧
    mapLookup archArmRegister "SB" = some (-2) ∧
    mapLookup archArmRegister "PC" = some (-4) ∧
    mapLookup archArmRegister "SP" = some (-3) ∧
    mapLookup archPPC64Register "FP" = some (-1) ∧
    mapLookup archPPC64Register "SB" = some (-2) ∧
    mapLookup archPPC64Register "PC" = some (-4) ∧
    (([arch386Register, archAmd64Register, archArmRegister, archPPC64Register].all
        fun t => t.all fun kv => (0 ≤ kv.2) || decide (kv.1 ∈ pseudoNames)) = true) := by
  decide

/-- C8: the 386 and amd64 descriptors share the one classifier jump386,
which returns true exactly when the first character of the mnemonic is J
or the mnemonic is CALL; in particular it is true on every J-prefixed
mnemonic of either instruction table and on CALL, and false on the
non-branch mnemonic MOVL. -/
theorem C8_jump_classifier :
    arch386.IsJump = some jump386 ∧
    archAmd64.IsJump = some jump386 ∧
    (∀ w : String, jump386 w = some true ↔ (w.data.head? = some 'J' ∨ w = "CALL")) ∧
    jump386 "CALL" = some true ∧
    (((arch386Instructions.filter fun kv =>
          kv.1.data.head? == some 'J' || kv.1 == "CALL").all
        fun kv => jump386 kv.1 == some true) = true) ∧
    (((archAmd64Instructions.filter fun kv =>
          kv.1.data.head? == some 'J' || kv.1 == "CALL").all
        fun kv => jump386 kv.1 == some true) = true) ∧
    jump386 "MOVL" = some false := by
  refine ⟨rfl, rfl, ?_, by decide⟩
  intro w
  cases hw : w.data.head? with
  | none =>
    have hc : w ≠ "CALL" := by
      intro h
      rw [h] at hw
      exact absurd hw (by decide)
    simp [jump386, hw, hc]
  | some c =>
    simp [jump386, hw, Bool.or_eq_true, beq_iff_eq]

/-- C9 counterexample: on the empty string the 386/amd64 jump classifier
does not return a boolean at all: indexing the first byte aborts, which
the embedding renders as none. -/
theorem C9_counterexample : jump386 "" = none := rfl

/-- C9 as amended: the jump classifier jump386 returns a boolean result
for every non-empty input string; totality fails only on the empty
string, where the source indexes the first byte of its argument. -/
theorem C9_total_on_nonempty :
    ∀ w : String, w ≠ "" → (jump386 w).isSome = true := by
  intro w hw
  cases hq : w.data.head? with
  | none =>
    exact absurd (String.ext (List.head?_eq_none_iff.mp hq)) hw
  | some c =>
    simp [jump386, hq]

/-- Witness for C9 as amended: at the concrete non-empty input MOVL the
classifier returns a result. -/
theorem C9_witness : "MOVL" ≠ "" ∧ (jump386 "MOVL").isSome = true :=
  ⟨by decide, C9_total_on_nonempty "MOVL" (by decide)⟩

/-- C10: the amd64 builder assigns the alias key MOVOA twice with the
identical value x86.AMOVO; the duplicate is idempotent, so over any
generated table the alias layer yields the same instruction table as a
single insertion, the final table holds exactly one MOVOA entry with
value x86.AMOVO, and no alias key of any builder is assigned twice with
differing values. -/
theorem C10_duplicate_alias_idempotent :
    (∀ gen : GoMap Int, insertAll gen amd64Aliases = insertAll gen amd64AliasesOnce) ∧
    ((amd64Aliases.filter fun kv => kv.1 == "MOVOA") =
      [("MOVOA", x86.AMOVO), ("MOVOA", x86.AMOVO)]) ∧
    mapLookup archAmd64Instructions "MOVOA" = some x86.AMOVO ∧
    ((archAmd64Instructions.filter fun kv => kv.1 == "MOVOA").length = 1) ∧
    noTwoDifferingInserts amd64Aliases = true ∧
    noTwoDifferingInserts arch386Aliases = true ∧
    noTwoDifferingInserts armAliases = true ∧
    noTwoDifferingInserts ppc64Aliases = true := by
  refine ⟨?_, by decide⟩
  intro gen
  simp only [amd64Aliases, amd64AliasesOnce, insertAll, List.foldl_cons, List.foldl_nil]
  rw [mapInsert_idem]

end GoAsmArch
